import Mathlib

/-!
Shallow embedding of `modules/planning/tasks/deciders/path_reuse_decider/path_reuse_decider.cc`
(class `PathReuseDecider` of the Apollo planning module).

Modelling conventions:
* C++ `double` values are embedded as rationals (`ℚ`); the constants of the
  source (`0.5`, `1e-4`, `30.0`, `3`, `20`, `-2`) appear verbatim below.
* External collaborators (the reference line's `XYToSL` projection, the
  vehicle state provider, `VehicleConfigHelper::GetBoundingBox` corner list,
  the indexed obstacle list, the planning-context flags and the frame
  history) are per-cycle inputs, bundled in `Env`.
* The C++ call pattern `common::SLPoint out; reference_line.XYToSL(p, &out);`
  with the boolean return value ignored is modelled by `projD`: on projection
  failure the freshly default-initialized protobuf keeps `s = 0, l = 0`.
* A C++ `std::vector` access that is out of bounds is undefined behavior; the
  operations that can perform one return `Option`/`TrimResult.oob` so that
  the undefined case is explicit (`none` / `.oob` = no defined result).
* The persisted cross-cycle state (`reused_path` flag plus the two static
  observability counters) is `GateState`; `ProcessStep` is one invocation of
  `PathReuseDecider::Process`, `runProcess` a sequence of cycles.
-/

namespace PathReuse

/-- Cartesian 2-d point (`common::math::Vec2d`). -/
structure Vec2d where
  x : ℚ
  y : ℚ
deriving DecidableEq, Repr

/-- Curvilinear point (`common::SLPoint`): arc length `s` along the reference
line, lateral offset `l`. -/
structure SLPoint where
  s : ℚ
  l : ℚ
deriving DecidableEq, Repr

/-- One planned path point (`common::PathPoint`): Cartesian position and the
path's own cumulative arc length `s`.  Heading and curvature are consumed only
by the external bounding-box helper, which is an oracle of the environment. -/
structure PathPoint where
  x : ℚ
  y : ℚ
  s : ℚ
deriving DecidableEq, Repr

/-- Axis-aligned curvilinear box (`PerceptionSLBoundary`). -/
structure SLBoundary where
  start_s : ℚ
  end_s : ℚ
  start_l : ℚ
  end_l : ℚ
deriving DecidableEq, Repr

/-- Obstacle snapshot as read by this module ( `Obstacle::IsStatic`,
`Obstacle::IsVirtual`, `Obstacle::PerceptionSLBoundary`, `Obstacle::Id`). -/
structure Obstacle where
  id : String
  is_static : Bool
  is_virtual : Bool
  sl : SLBoundary
deriving DecidableEq, Repr

/-- Per-cycle environment: everything `Process` reads from collaborators.
`proj` is `reference_line.XYToSL` (`none` = projection failure), `bbox` is
`VehicleConfigHelper::GetBoundingBox(path_point).GetAllCorners()`,
`history_path` is `FrameHistory::Latest()->current_frame_planned_path()`
(`none` = no history frame), and the two `front_static_obstacle_*` fields are
the `PathDeciderStatus` written by an upstream stage. -/
structure Env where
  reuse_path_config : Bool
  adc_pos : Vec2d
  adc_speed : ℚ
  proj : Vec2d → Option SLPoint
  bbox : PathPoint → List Vec2d
  obstacles : List Obstacle
  history_path : Option (List PathPoint)
  front_static_obstacle_id : String
  front_static_obstacle_cycle_counter : Int

/-- Persisted state: the `reused_path` flag of `PathReuseDeciderStatus`, and
the two static counters `reusable_path_counter_` / `total_path_counter_`. -/
structure GateState where
  reused_path : Bool
  reusable_path_counter : Int
  total_path_counter : Int
deriving DecidableEq, Repr

/-- Observable outcome of one `Process` cycle: either the trimmed previous
path was installed via `set_current_frame_planned_path` (`ReuseAndTrim`), or
no path was handed over and the pipeline does full planning (`Fallback`). -/
inductive Action where
  | ReuseAndTrim (path : List PathPoint)
  | Fallback
deriving DecidableEq, Repr

/-- Result of `TrimHistoryPath`: `noHistory` = returned `false` (no history
frame), `oob` = the access `history_path[path_start_index]` was out of bounds
(undefined behavior in the C++), `ok p` = returned `true` after installing
the trimmed path `p`. -/
inductive TrimResult where
  | noHistory
  | oob
  | ok (path : List PathPoint)
deriving DecidableEq, Repr

/-- The C++ pattern `common::SLPoint sl; reference_line.XYToSL(p, &sl);` with
the return value ignored: on failure the default-initialized protobuf value
`(0, 0)` is used. -/
def projD (env : Env) (p : Vec2d) : SLPoint :=
  (env.proj p).getD { s := 0, l := 0 }

/-- `PathReuseDecider::GetADCSLPoint` (source lines 155-163): projects the
vehicle position; the `XYToSL` return value is ignored. -/
def GetADCSLPoint (env : Env) : SLPoint :=
  projD env env.adc_pos

/-- `kWaitCycle` (source line 58). -/
def kWaitCycle : Int := -2

/-- `kSDistBuffer` (source line 111). -/
def kSDistBuffer : ℚ := 30

/-- `kTimeBuffer` (source line 112). -/
def kTimeBuffer : ℚ := 3

/-- `kSBuffer` (source line 346). -/
def kSBuffer : ℚ := 1/2

/-- `kMinObstacleArea` (source line 345). -/
def kMinObstacleArea : ℚ := 1/10000

/-- `kNumExtraTailBoundPoint` (source line 347). -/
def kNumExtraTailBoundPoint : ℚ := 20

/-- `kPathBoundsDeciderResolution` (source line 348). -/
def kPathBoundsDeciderResolution : ℚ := 1/2

/-- `PathReuseDecider::GetBlockingObstacleS` (source lines 133-153): looks up
`front_static_obstacle_id` in the indexed obstacle list; on a hit writes the
obstacle's `start_s` into the out-parameter and returns true. -/
def GetBlockingObstacleS (env : Env) : Option ℚ :=
  match env.obstacles.find? (fun ob => ob.id == env.front_static_obstacle_id) with
  | some ob => some ob.sl.start_s
  | none => none

/-- `PathReuseDecider::IsIgnoredBlockingObstacle` (source lines 109-131). -/
def IsIgnoredBlockingObstacle (env : Env) : Bool :=
  match GetBlockingObstacleS env with
  | some blocking_obstacle_start_s =>
      decide (blocking_obstacle_start_s - (GetADCSLPoint env).s >
        max kSDistBuffer (kTimeBuffer * env.adc_speed))
  | none => false

/-- Modelled from the spec: `common::math::Polygon2d::IsPointIn` is external
to `src/`; per the spec the obstacle polygons are "axis-aligned
quadrilaterals in curvilinear space from their `(start_s,start_l)…
(end_s,end_l)` corners" and membership is a point-in-polygon test, i.e.
boundary-inclusive containment in the axis-aligned rectangle. -/
def isPointIn (b : SLBoundary) (p : Vec2d) : Bool :=
  decide (min b.start_s b.end_s ≤ p.x) && decide (p.x ≤ max b.start_s b.end_s) &&
  decide (min b.start_l b.end_l ≤ p.y) && decide (p.y ≤ max b.start_l b.end_l)

/-- The obstacle filter of `IsCollisionFree` (source lines 359-374): keep an
obstacle iff it is static, not virtual, not entirely behind
`adc_s - kSBuffer`, and its box area is not below `kMinObstacleArea`. -/
def obstacleRetained (adc_s : ℚ) (ob : Obstacle) : Bool :=
  (ob.is_static && !ob.is_virtual) &&
  !(decide (ob.sl.end_s < adc_s - kSBuffer)) &&
  !(decide ((ob.sl.end_s - ob.sl.start_s) * (ob.sl.end_l - ob.sl.start_l) <
      kMinObstacleArea))

/-- The obstacle polygon set built by `IsCollisionFree` (source lines
358-380), as the list of retained curvilinear boxes. -/
def obstaclePolygons (env : Env) : List SLBoundary :=
  (env.obstacles.filter (obstacleRetained (GetADCSLPoint env).s)).map Obstacle.sl

/-- The corner loop of `IsCollisionFree` (source lines 406-427): project each
corner of the vehicle box; a failed projection returns `false` immediately, a
corner inside any obstacle polygon returns `false`; otherwise continue. -/
def cornersFree (env : Env) (polys : List SLBoundary) : List Vec2d → Bool
  | [] => true
  | c :: cs =>
    match env.proj c with
    | none => false
    | some corner_sl =>
      if polys.any (fun b => isPointIn b { x := corner_sl.s, y := corner_sl.l }) then
        false
      else cornersFree env polys cs

/-- The path-point loop of `IsCollisionFree` (source lines 392-428): stop
(returning true) once the remaining distance to the path end drops below
`kNumExtraTailBoundPoint * kPathBoundsDeciderResolution`; skip points behind
`adc_s - kSBuffer`; otherwise test the vehicle-box corners. -/
def collisionScan (env : Env) (adc_s path_end_s : ℚ) (polys : List SLBoundary) :
    List PathPoint → Bool
  | [] => true
  | pt :: rest =>
    let path_position_sl_s := (projD env { x := pt.x, y := pt.y }).s
    if path_end_s - path_position_sl_s <
        kNumExtraTailBoundPoint * kPathBoundsDeciderResolution then true
    else if path_position_sl_s < adc_s - kSBuffer then
      collisionScan env adc_s path_end_s polys rest
    else if cornersFree env polys (env.bbox pt) = true then
      collisionScan env adc_s path_end_s polys rest
    else false

/-- `PathReuseDecider::IsCollisionFree` (source lines 343-430).  `none`
models the undefined behavior of `history_path.back()` on an empty path
(reachable only when the polygon set is non-empty and a history frame
exists). -/
def IsCollisionFree (env : Env) : Option Bool :=
  if (obstaclePolygons env).isEmpty = true then some true
  else
    match env.history_path with
    | none => some false
    | some history_path =>
      match history_path.getLast? with
      | none => none
      | some back_point =>
        some (collisionScan env (GetADCSLPoint env).s
          (projD env { x := back_point.x, y := back_point.y }).s
          (obstaclePolygons env) history_path)

/-- `PathReuseDecider::CheckPathReusable` (source lines 93-107): all the
alternative criteria are commented out; it just calls `IsCollisionFree`. -/
def CheckPathReusable (env : Env) : Option Bool :=
  IsCollisionFree env

/-- The loop of `TrimHistoryPath` (source lines 449-462), threading
`path_start_s`, `path_start_index` and the accumulated `trimmed_path`.  A
point whose projected `s` is below `adc_s` updates `path_start_s` to its
projected `s` and increments `path_start_index`; any other point is appended
with its own arc length rebased by the current `path_start_s`. -/
def trimLoop (env : Env) (adc_s : ℚ) :
    List PathPoint → ℚ → ℕ → List PathPoint → ℚ × ℕ × List PathPoint
  | [], path_start_s, path_start_index, acc => (path_start_s, path_start_index, acc)
  | pt :: rest, path_start_s, path_start_index, acc =>
    let path_position_sl_s := (projD env { x := pt.x, y := pt.y }).s
    if path_position_sl_s < adc_s then
      trimLoop env adc_s rest path_position_sl_s (path_start_index + 1) acc
    else
      trimLoop env adc_s rest path_start_s path_start_index
        (acc ++ [{ pt with s := pt.s - path_start_s }])

/-- `PathReuseDecider::TrimHistoryPath` (source lines 432-466).  After the
loop, the point `history_path[path_start_index]` is prepended unrebased; when
that index is past the end (empty path, or every point projected below
`adc_s`) the C++ access is out of bounds, modelled as `.oob`. -/
def TrimHistoryPath (env : Env) : TrimResult :=
  match env.history_path with
  | none => TrimResult.noHistory
  | some history_path =>
    let r := trimLoop env (GetADCSLPoint env).s history_path 0 0 []
    match history_path[r.2.1]? with
    | none => TrimResult.oob
    | some anchor => TrimResult.ok (anchor :: r.2.2)

/-- `PathReuseDecider::Process` (source lines 42-91), one cycle.
`none` = the cycle hit undefined behavior (an out-of-bounds vector access
inside `IsCollisionFree` or `TrimHistoryPath`). -/
def ProcessStep (st : GateState) (env : Env) : Option (GateState × Action) :=
  if env.reuse_path_config = false then some (st, Action.Fallback)
  else if st.reused_path = true then
    match CheckPathReusable env with
    | none => none
    | some true =>
      match TrimHistoryPath env with
      | TrimResult.oob => none
      | TrimResult.noHistory =>
        some ({ st with reusable_path_counter := st.reusable_path_counter + 1,
                        total_path_counter := st.total_path_counter + 1 },
              Action.Fallback)
      | TrimResult.ok p =>
        some ({ st with reusable_path_counter := st.reusable_path_counter + 1,
                        total_path_counter := st.total_path_counter + 1 },
              Action.ReuseAndTrim p)
    | some false =>
      some ({ st with reused_path := false,
                      total_path_counter := st.total_path_counter + 1 },
            Action.Fallback)
  else
    if env.front_static_obstacle_cycle_counter < kWaitCycle ∨
        IsIgnoredBlockingObstacle env = true then
      some ({ st with reused_path := true,
                      total_path_counter := st.total_path_counter + 1 },
            Action.Fallback)
    else
      some ({ st with total_path_counter := st.total_path_counter + 1 },
            Action.Fallback)

/-- The step-3 re-enable condition of `Process` (source lines 80-82). -/
def enableCond (env : Env) : Prop :=
  env.front_static_obstacle_cycle_counter < kWaitCycle ∨
  IsIgnoredBlockingObstacle env = true

/-- Run `Process` over a sequence of cycles; `none` once any cycle hits
undefined behavior. -/
def runProcess : GateState → List Env → Option GateState
  | st, [] => some st
  | st, e :: es =>
    match ProcessStep st e with
    | none => none
    | some (st1, _) => runProcess st1 es

/-- The `reused_path` flag after a sequence of cycles. -/
def flagAfter (st : GateState) (envs : List Env) : Option Bool :=
  (runProcess st envs).map GateState.reused_path

/-- Non-decreasing test for a list of arc lengths. -/
def sMonotone : List ℚ → Bool
  | [] => true
  | [_] => true
  | a :: b :: t => decide (a ≤ b) && sMonotone (b :: t)

/-- Projected `s` of the last point of a list, or the default `d` when the
list is empty — the value `path_start_s` holds after `trimLoop` consumes a
run of points all projecting below `adc_s`. -/
def lastProjOr (env : Env) : ℚ → List PathPoint → ℚ
  | d, [] => d
  | _, p :: ps => lastProjOr env (projD env { x := p.x, y := p.y }).s ps

/-! Concrete fixtures used by witnesses and counterexamples. -/

/-- A baseline cycle: reuse enabled, identity-like projection (the reference
line is the x-axis), vehicle at the origin at standstill, no obstacles, no
history frame. -/
def baseEnv : Env where
  reuse_path_config := true
  adc_pos := { x := 0, y := 0 }
  adc_speed := 0
  proj := fun v => some { s := v.x, l := v.y }
  bbox := fun _ => []
  obstacles := []
  history_path := none
  front_static_obstacle_id := ""
  front_static_obstacle_cycle_counter := 0

/-- A static, non-virtual obstacle ahead of the origin with area 1. -/
def solidObs : Obstacle where
  id := "1"
  is_static := true
  is_virtual := false
  sl := { start_s := 5, end_s := 6, start_l := 0, end_l := 1 }

/-- A virtual copy of `solidObs`. -/
def virtObs : Obstacle :=
  { solidObs with id := "2", is_virtual := true }

/-- Gate state with reuse currently enabled, counters at zero. -/
def st0 : GateState where
  reused_path := true
  reusable_path_counter := 0
  total_path_counter := 0

/-- Gate state with reuse currently disabled, counters at zero. -/
def stF : GateState where
  reused_path := false
  reusable_path_counter := 0
  total_path_counter := 0

/-- Like `stF` but with different counter values. -/
def stF2 : GateState where
  reused_path := false
  reusable_path_counter := 5
  total_path_counter := 7

/-- The state after one configuration-enabled cycle from `stF`. -/
def stT1 : GateState where
  reused_path := false
  reusable_path_counter := 0
  total_path_counter := 1

/-- A cycle on which the collision check rejects: one retained obstacle and
no history frame. -/
def envReject : Env :=
  { baseEnv with obstacles := [solidObs] }

/-- A cycle whose only obstacle is virtual. -/
def envVirt : Env :=
  { baseEnv with obstacles := [virtObs] }

/-- A cycle with no blocking obstacle recorded for three cycles. -/
def envEnable : Env :=
  { baseEnv with front_static_obstacle_cycle_counter := -3 }

/-- A cycle with reuse disabled by configuration. -/
def envOff : Env :=
  { baseEnv with reuse_path_config := false }

/-- A cycle on which every projection fails, with a one-point history path. -/
def envProjFail : Env :=
  { baseEnv with proj := fun _ => none,
                 history_path := some [{ x := 1, y := 2, s := 3 }] }

/-- Retained obstacle for the corner-projection-failure witness. -/
def obsCF : Obstacle where
  id := "3"
  is_static := true
  is_virtual := false
  sl := { start_s := 25, end_s := 26, start_l := 0, end_l := 1 }

/-- A cycle on which the projection fails exactly at the first vehicle-box
corner `(99, 99)` of the first scanned path point. -/
def envCornerFail : Env :=
  { baseEnv with
      adc_pos := { x := 20, y := 0 },
      proj := fun v => if v = { x := 99, y := 99 } then none
                       else some { s := v.x, l := v.y },
      bbox := fun pt => [{ x := 99, y := 99 },
                         { x := pt.x + 2, y := pt.y + 1 },
                         { x := pt.x + 2, y := pt.y - 1 },
                         { x := pt.x - 2, y := pt.y - 1 }],
      obstacles := [obsCF],
      history_path := some [{ x := 21, y := 0, s := 1 }, { x := 40, y := 0, s := 20 }] }

/-- A cycle whose reference line is offset by 100 in `s` from the previous
path's own arc-length origin: projected `s` of a path point is `x + 100`
while the point's own `s` equals `x`. -/
def envTrimC : Env :=
  { baseEnv with
      adc_pos := { x := 6, y := 0 },
      history_path := some [{ x := 0, y := 0, s := 0 },
                            { x := 5, y := 0, s := 5 },
                            { x := 10, y := 0, s := 10 }],
      proj := fun v => some { s := v.x + 100, l := v.y } }

/-- Points of the trim witness path that project below `adc_s = 2`. -/
def preW : List PathPoint :=
  [{ x := 0, y := 0, s := 0 }, { x := 1, y := 0, s := 1 }]

/-- First point of the trim witness path projecting at or above `adc_s`. -/
def qW : PathPoint := { x := 3, y := 0, s := 3 }

/-- Remaining points of the trim witness path. -/
def sufW : List PathPoint := [{ x := 4, y := 0, s := 4 }]

/-- A cycle for the trim-rebasing witness: vehicle at `s = 2` part-way along
a four-point history path. -/
def envTrimW : Env :=
  { baseEnv with adc_pos := { x := 2, y := 0 },
                 history_path := some (preW ++ qW :: sufW) }

/-- A cycle with a present history frame whose planned path is empty. -/
def envEmptyPath : Env :=
  { baseEnv with history_path := some [] }

/-- A cycle on which every history-path point projects below the vehicle. -/
def envAllBehind : Env :=
  { baseEnv with adc_pos := { x := 10, y := 0 },
                 history_path := some [{ x := 0, y := 0, s := 0 }] }

/-- Obstacle strictly inside the vehicle footprint at the pose `x = 40`. -/
def obs9 : Obstacle where
  id := "9"
  is_static := true
  is_virtual := false
  sl := { start_s := 79/2, end_s := 81/2, start_l := -1/5, end_l := 1/5 }

/-- A cycle whose history path sweeps the vehicle footprint over `obs9`
without any footprint corner ever landing inside the obstacle box. -/
def env9 : Env :=
  { baseEnv with
      adc_pos := { x := 20, y := 0 },
      obstacles := [obs9],
      bbox := fun pt => [{ x := pt.x - 2, y := pt.y - 1 },
                         { x := pt.x + 2, y := pt.y - 1 },
                         { x := pt.x + 2, y := pt.y + 1 },
                         { x := pt.x - 2, y := pt.y + 1 }],
      history_path := some [{ x := 20, y := 0, s := 0 },
                            { x := 40, y := 0, s := 20 },
                            { x := 51, y := 0, s := 31 }] }

/-! Helper lemmas. -/

/-- A retained obstacle makes the polygon set non-empty. -/
theorem polys_not_empty (env : Env) (ob : Obstacle)
    (hmem : ob ∈ env.obstacles)
    (hret : obstacleRetained (GetADCSLPoint env).s ob = true) :
    (obstaclePolygons env).isEmpty = false := by
  have hmf : ob ∈ env.obstacles.filter (obstacleRetained (GetADCSLPoint env).s) :=
    List.mem_filter.mpr ⟨hmem, hret⟩
  cases hfil : env.obstacles.filter (obstacleRetained (GetADCSLPoint env).s) with
  | nil => rw [hfil] at hmf; cases hmf
  | cons x xs => simp [obstaclePolygons, hfil]

/-- Claim C3: if every obstacle of the cycle is non-static, or virtual, or has
`end_s < adc_s - 0.5`, or has box area below `1e-4`, then `IsCollisionFree`
returns true regardless of the previous path — including when no
previous-cycle frame or path exists, since the empty-polygon-set early return
precedes the history lookup. -/
theorem early_exit_equivalence (env : Env)
    (hfilter : ∀ ob ∈ env.obstacles,
      ob.is_static = false ∨ ob.is_virtual = true ∨
      ob.sl.end_s < (GetADCSLPoint env).s - 1/2 ∨
      (ob.sl.end_s - ob.sl.start_s) * (ob.sl.end_l - ob.sl.start_l) < 1/10000) :
    IsCollisionFree env = some true := by
  have hnil : env.obstacles.filter (obstacleRetained (GetADCSLPoint env).s) = [] := by
    rw [List.filter_eq_nil_iff]
    intro ob hob
    rcases hfilter ob hob with h | h | h | h
    · simp [obstacleRetained, h]
    · simp [obstacleRetained, h]
    · have hd : decide (ob.sl.end_s < (GetADCSLPoint env).s - kSBuffer) = true := by
        rw [decide_eq_true_eq, kSBuffer]; exact h
      simp [obstacleRetained, hd]
    · have hd : decide ((ob.sl.end_s - ob.sl.start_s) *
          (ob.sl.end_l - ob.sl.start_l) < kMinObstacleArea) = true := by
        rw [decide_eq_true_eq, kMinObstacleArea]; exact h
      simp [obstacleRetained, hd]
  simp [IsCollisionFree, obstaclePolygons, hnil]

/-- Witness for `early_exit_equivalence` at a concrete cycle whose only
obstacle is virtual (and with no history frame at all). -/
theorem early_exit_equivalence_witness :
    IsCollisionFree envVirt = some true :=
  early_exit_equivalence envVirt (by decide)

/-- Claim C5: when at least one obstacle survives the filtering (the polygon
set is non-empty) and no previous-cycle frame exists, `IsCollisionFree`
returns `some false` — a defined negative result, not an error. -/
theorem missing_history_negative (env : Env) (ob : Obstacle)
    (hmem : ob ∈ env.obstacles)
    (hret : obstacleRetained (GetADCSLPoint env).s ob = true)
    (hnohist : env.history_path = none) :
    IsCollisionFree env = some false := by
  have hne := polys_not_empty env ob hmem hret
  simp [IsCollisionFree, hne, hnohist]

/-- Concrete evaluation: `solidObs` passes the obstacle filter of
`envReject` (vehicle at `s = 0`). -/
theorem solidObs_retained :
    obstacleRetained (GetADCSLPoint envReject).s solidObs = true := by
  norm_num [obstacleRetained, GetADCSLPoint, projD, envReject, baseEnv, solidObs,
    kSBuffer, kMinObstacleArea]

/-- Witness for `missing_history_negative` at a concrete cycle with one
retained obstacle and no history frame. -/
theorem missing_history_negative_witness :
    IsCollisionFree envReject = some false :=
  missing_history_negative envReject solidObs
    (by simp [envReject, baseEnv]) solidObs_retained rfl

/-- Claim C7: `IsIgnoredBlockingObstacle` returns true iff the recorded
`front_static_obstacle_id` resolves to an obstacle of the current indexed
obstacle list and that obstacle's `start_s` minus the vehicle's curvilinear
`s` exceeds `max 30 (3 * current_speed)`; in particular it returns false
whenever no matching obstacle is found. -/
theorem ignored_blocking_obstacle_iff (env : Env) :
    IsIgnoredBlockingObstacle env = true ↔
      ∃ ob, env.obstacles.find? (fun o => o.id == env.front_static_obstacle_id) = some ob ∧
        ob.sl.start_s - (GetADCSLPoint env).s > max 30 (3 * env.adc_speed) := by
  unfold IsIgnoredBlockingObstacle GetBlockingObstacleS kSDistBuffer kTimeBuffer
  cases hfind : env.obstacles.find? (fun o => o.id == env.front_static_obstacle_id) with
  | none => simp
  | some ob => simp

/-- A cycle entered with `reused_path = false` whose enable condition fails
keeps the flag false; a configuration-disabled cycle leaves the state
untouched, so the flag also stays false. -/
theorem step_keeps_false (st : GateState) (e : Env)
    (hflag : st.reused_path = false)
    (hcond : ¬ enableCond e) :
    ∃ st1, ProcessStep st e = some (st1, Action.Fallback) ∧ st1.reused_path = false := by
  rw [enableCond] at hcond
  by_cases hc : e.reuse_path_config = false
  · exact ⟨st, by simp [ProcessStep, hc], hflag⟩
  · exact ⟨{ st with total_path_counter := st.total_path_counter + 1 },
      by simp [ProcessStep, hc, hflag, hcond], hflag⟩

/-- Once the flag is false it stays false over any run of cycles on which
the enable condition never holds. -/
theorem run_keeps_false (envs : List Env) :
    ∀ st : GateState, st.reused_path = false →
      (∀ e ∈ envs, ¬ enableCond e) →
      flagAfter st envs = some false := by
  induction envs with
  | nil => intro st hflag _; simp [flagAfter, runProcess, hflag]
  | cons e es ih =>
    intro st hflag hcond
    obtain ⟨st1, hstep, hflag1⟩ :=
      step_keeps_false st e hflag (hcond e (List.mem_cons_self e es))
    simp only [flagAfter, runProcess, hstep]
    simpa [flagAfter] using ih st1 hflag1 (fun x hx => hcond x (List.mem_cons_of_mem e hx))

/-- Claim C1: on a cycle entered with `reused_path = true` (reuse is invoked,
so configuration is on) on which the collision check returns false, `Process`
sets `reused_path` to false in that same cycle and does not hand over the
previous path (the action is `Fallback`, never `ReuseAndTrim`); and over any
subsequent cycles on which the step-3 enable condition
(`cycle_counter < kWaitCycle` or `IsIgnoredBlockingObstacle`) does not hold,
the flag remains false.  Since `future` is universally quantified, applying
the theorem to every prefix of a run gives falseness at every intermediate
cycle until the enable condition next holds. -/
theorem gate_monotonic_safety (st : GateState) (env : Env) (future : List Env)
    (hcfg : env.reuse_path_config = true)
    (hflag : st.reused_path = true)
    (hrej : CheckPathReusable env = some false)
    (hnoenable : ∀ e ∈ future, ¬ enableCond e) :
    ProcessStep st env =
      some ({ st with reused_path := false,
                      total_path_counter := st.total_path_counter + 1 },
            Action.Fallback) ∧
    flagAfter { st with reused_path := false,
                        total_path_counter := st.total_path_counter + 1 } future =
      some false := by
  constructor
  · simp [ProcessStep, hcfg, hflag, hrej]
  · exact run_keeps_false future _ rfl hnoenable

/-- Concrete evaluation: the collision check rejects on `envReject` (one
retained obstacle, no history frame). -/
theorem check_envReject_false : CheckPathReusable envReject = some false := by
  norm_num [CheckPathReusable, IsCollisionFree, obstaclePolygons, obstacleRetained,
    GetADCSLPoint, projD, envReject, baseEnv, solidObs, kSBuffer, kMinObstacleArea]

/-- Witness for `gate_monotonic_safety` at a concrete rejecting cycle with an
empty future. -/
theorem gate_monotonic_safety_witness :
    ProcessStep st0 envReject =
      some ({ st0 with reused_path := false,
                       total_path_counter := st0.total_path_counter + 1 },
            Action.Fallback) ∧
    flagAfter { st0 with reused_path := false,
                         total_path_counter := st0.total_path_counter + 1 } [] =
      some false :=
  gate_monotonic_safety st0 envReject [] rfl rfl check_envReject_false
    (by intro e he; exact absurd he (List.not_mem_nil e))

/-- Claim C6: a cycle entered with `reused_path = false` and reuse enabled by
configuration sets the flag to true iff
`front_static_obstacle_cycle_counter < kWaitCycle` (i.e. `< -2`) or
`IsIgnoredBlockingObstacle` returns true; the action is `Fallback` either way
(no collision check was consulted, nothing trimmed), the reusable counter is
unchanged, and when neither condition holds the flag is left unchanged
(false). -/
theorem gate_reenable_rule (st : GateState) (env : Env)
    (hcfg : env.reuse_path_config = true)
    (hflag : st.reused_path = false) :
    ProcessStep st env =
      some ({ st with
                reused_path := if env.front_static_obstacle_cycle_counter < kWaitCycle ∨
                    IsIgnoredBlockingObstacle env = true then true else false,
                total_path_counter := st.total_path_counter + 1 },
            Action.Fallback) := by
  by_cases hcond : env.front_static_obstacle_cycle_counter < kWaitCycle ∨
      IsIgnoredBlockingObstacle env = true
  · simp [ProcessStep, hcfg, hflag, hcond]
  · simp only [ProcessStep, hcfg, hflag, hcond]
    cases st with
    | mk f r t => simp_all

/-- Witness for `gate_reenable_rule` at a concrete cycle with the counter at
`-3` (no blocking obstacle for three cycles). -/
theorem gate_reenable_rule_witness :
    ProcessStep stF envEnable =
      some ({ stF with
                reused_path := if envEnable.front_static_obstacle_cycle_counter < kWaitCycle ∨
                    IsIgnoredBlockingObstacle envEnable = true then true else false,
                total_path_counter := stF.total_path_counter + 1 },
            Action.Fallback) :=
  gate_reenable_rule stF envEnable rfl rfl

/-- `trimLoop` over an append runs the two halves in sequence. -/
theorem trimLoop_append (env : Env) (a : ℚ) (l1 l2 : List PathPoint) :
    ∀ pss psi acc, trimLoop env a (l1 ++ l2) pss psi acc =
      trimLoop env a l2 (trimLoop env a l1 pss psi acc).1
        (trimLoop env a l1 pss psi acc).2.1 (trimLoop env a l1 pss psi acc).2.2 := by
  induction l1 with
  | nil => intro pss psi acc; rfl
  | cons pt rest ih =>
    intro pss psi acc
    simp only [List.cons_append, trimLoop]
    by_cases h : (projD env { x := pt.x, y := pt.y }).s < a
    · simp only [if_pos h]; exact ih _ _ _
    · simp only [if_neg h]; exact ih _ _ _

/-- On a run of points that all project below `adc_s`, `trimLoop` only
advances `path_start_s` (to the last projected `s`) and `path_start_index`. -/
theorem trimLoop_below (env : Env) (a : ℚ) (l : List PathPoint)
    (h : ∀ p ∈ l, (projD env { x := p.x, y := p.y }).s < a) :
    ∀ pss psi acc, trimLoop env a l pss psi acc =
      (lastProjOr env pss l, psi + l.length, acc) := by
  induction l with
  | nil => intro pss psi acc; simp [trimLoop, lastProjOr]
  | cons pt rest ih =>
    intro pss psi acc
    have hpt := h pt (List.mem_cons_self pt rest)
    simp only [trimLoop, lastProjOr, if_pos hpt]
    rw [ih (fun p hp => h p (List.mem_cons_of_mem pt hp))]
    have h2 : psi + 1 + rest.length = psi + (pt :: rest).length := by
      simp only [List.length_cons]; omega
    rw [h2]

/-- On a run of points none of which projects below `adc_s`, `trimLoop`
appends every point rebased by the current `path_start_s`. -/
theorem trimLoop_not_below (env : Env) (a : ℚ) (l : List PathPoint)
    (h : ∀ p ∈ l, ¬ (projD env { x := p.x, y := p.y }).s < a) :
    ∀ pss psi acc, trimLoop env a l pss psi acc =
      (pss, psi, acc ++ l.map (fun pt => { pt with s := pt.s - pss })) := by
  induction l with
  | nil => intro pss psi acc; simp [trimLoop]
  | cons pt rest ih =>
    intro pss psi acc
    have hpt := h pt (List.mem_cons_self pt rest)
    simp only [trimLoop, if_neg hpt]
    rw [ih (fun p hp => h p (List.mem_cons_of_mem pt hp))]
    simp

/-- Indexing an append just past its left half. -/
theorem getElem_append_mid (l1 : List PathPoint) (a : PathPoint) (l2 : List PathPoint) :
    (l1 ++ a :: l2)[l1.length]? = some a := by
  induction l1 with
  | nil => simp
  | cons b t ih => simpa using ih

/-- Subtracting a constant preserves the non-decreasing test. -/
theorem sMonotone_map_sub (c : ℚ) : ∀ l : List ℚ,
    sMonotone (l.map (fun x => x - c)) = sMonotone l := by
  intro l
  induction l with
  | nil => rfl
  | cons a t ih =>
    cases t with
    | nil => rfl
    | cons b t2 =>
      simp only [List.map_cons] at ih ⊢
      simp only [sMonotone]
      rw [ih]
      congr 1
      rw [decide_eq_decide]
      exact sub_le_sub_iff_right c

/-- Claim C2, amended to what the code computes.  For a non-empty previous
path splitting as `pre ++ q :: suf` where every point of `pre` projects to
`s < adc_s` and `q` and all of `suf` do not: the trimmed path is the point at
index `pre.length` — `q`, the first point at or beyond the vehicle, one past
the last below-`adc_s` point — with its `s` unchanged, followed by `q` and
the rest each rebased by `path_start_s`, which is the projected
(reference-line) `s` of the last point of `pre` (`0` when `pre` is empty),
not that point's own arc length; and under the source path's `s` monotonicity
the rebased tail stays non-decreasing (the unrebased anchor may still exceed
the second point, so the claim's "whole output non-decreasing" does not
hold, see the counterexample). -/
theorem trim_rebase_amended (env : Env) (pre : List PathPoint) (q : PathPoint)
    (suf : List PathPoint)
    (hhist : env.history_path = some (pre ++ q :: suf))
    (hpre : ∀ p ∈ pre, (projD env { x := p.x, y := p.y }).s < (GetADCSLPoint env).s)
    (hq : ¬ (projD env { x := q.x, y := q.y }).s < (GetADCSLPoint env).s)
    (hsuf : ∀ p ∈ suf, ¬ (projD env { x := p.x, y := p.y }).s < (GetADCSLPoint env).s)
    (hmono : sMonotone ((q :: suf).map PathPoint.s) = true) :
    TrimHistoryPath env =
      TrimResult.ok (q :: (q :: suf).map
        (fun pt => { pt with s := pt.s - lastProjOr env 0 pre })) ∧
    sMonotone (((q :: suf).map
        (fun pt => { pt with s := pt.s - lastProjOr env 0 pre })).map PathPoint.s) =
      true := by
  have hqs : ∀ p ∈ q :: suf,
      ¬ (projD env { x := p.x, y := p.y }).s < (GetADCSLPoint env).s := by
    intro p hp
    rcases List.mem_cons.mp hp with h | h
    · subst h; exact hq
    · exact hsuf p h
  have hrun : trimLoop env (GetADCSLPoint env).s (pre ++ q :: suf) 0 0 [] =
      (lastProjOr env 0 pre, pre.length,
        (q :: suf).map (fun pt => { pt with s := pt.s - lastProjOr env 0 pre })) := by
    rw [trimLoop_append, trimLoop_below env _ pre hpre,
      trimLoop_not_below env _ _ hqs]
    simp
  constructor
  · simp only [TrimHistoryPath, hhist, hrun]
    rw [getElem_append_mid]
  · have hmap : ((q :: suf).map
        (fun pt => { pt with s := pt.s - lastProjOr env 0 pre })).map PathPoint.s =
        ((q :: suf).map PathPoint.s).map (fun x => x - lastProjOr env 0 pre) := by
      rw [List.map_map, List.map_map]
      rfl
    rw [hmap, sMonotone_map_sub]
    exact hmono

/-- Counterexample to claim C2 as stated: on `envTrimC` the reference line's
`s` origin differs from the path's own arc-length origin by 100, the last
point projecting below `adc_s = 106` is the one at index 1 (own arc length
5), yet the output's first point is the index-2 point with `s = 10` — not the
index-1 point — and the following point is rebased by the projected
`path_start_s = 105` (not by the own arc length 5), giving `10 - 105 = -95`;
the resulting `s` sequence `[10, -95]` is decreasing, refuting both the
claimed first-point/rebase values and the claimed non-decreasing output. -/
theorem trim_rebase_counterexample :
    TrimHistoryPath envTrimC =
      TrimResult.ok [{ x := 10, y := 0, s := 10 }, { x := 10, y := 0, s := -95 }] ∧
    sMonotone [(10 : ℚ), -95] = false := by
  constructor
  · norm_num [TrimHistoryPath, trimLoop, GetADCSLPoint, projD, envTrimC, baseEnv]
  · norm_num [sMonotone]

/-- Witness for `trim_rebase_amended` on a concrete four-point path with the
vehicle between the second and third points. -/
theorem trim_rebase_amended_witness :
    TrimHistoryPath envTrimW =
      TrimResult.ok (qW :: (qW :: sufW).map
        (fun pt => { pt with s := pt.s - lastProjOr envTrimW 0 preW })) ∧
    sMonotone (((qW :: sufW).map
        (fun pt => { pt with s := pt.s - lastProjOr envTrimW 0 preW })).map PathPoint.s) =
      true :=
  trim_rebase_amended envTrimW preW qW sufW rfl
    (by norm_num [preW, projD, envTrimW, baseEnv, GetADCSLPoint])
    (by norm_num [qW, projD, envTrimW, baseEnv, GetADCSLPoint])
    (by norm_num [sufW, projD, envTrimW, baseEnv, GetADCSLPoint])
    (by norm_num [sMonotone, qW, sufW])

/-- Claim C4, amended to what the code checks.  Only the per-corner
projection's return value is tested (source lines 409-413): if the polygon
set is non-empty, a history path exists, and the first scanned path point is
inside the validation window with a vehicle-box corner whose projection
fails, `IsCollisionFree` returns false.  (The projections of the ADC
position, the path end point and the path points themselves ignore the
`XYToSL` return value, and `TrimHistoryPath` ignores it entirely — see the
counterexample.) -/
theorem corner_projection_fails_closed (env : Env) (ob : Obstacle)
    (pt back_pt : PathPoint) (rest : List PathPoint) (c : Vec2d) (cs : List Vec2d)
    (hmem : ob ∈ env.obstacles)
    (hret : obstacleRetained (GetADCSLPoint env).s ob = true)
    (hhist : env.history_path = some (pt :: rest))
    (hlast : (pt :: rest).getLast? = some back_pt)
    (hbox : env.bbox pt = c :: cs)
    (hcfail : env.proj c = none)
    (htail : ¬ ((projD env { x := back_pt.x, y := back_pt.y }).s -
        (projD env { x := pt.x, y := pt.y }).s <
        kNumExtraTailBoundPoint * kPathBoundsDeciderResolution))
    (hbehind : ¬ ((projD env { x := pt.x, y := pt.y }).s <
        (GetADCSLPoint env).s - kSBuffer)) :
    IsCollisionFree env = some false := by
  have hne := polys_not_empty env ob hmem hret
  simp [IsCollisionFree, hne, hhist, hlast, collisionScan, hbox, cornersFree,
    hcfail, htail, hbehind]

/-- Counterexample to claim C4 as stated: on `envProjFail` every `XYToSL`
call fails, so conversions needed by both operations fail (in particular the
ADC-position projection each performs), yet `IsCollisionFree` returns true
(the empty polygon set short-circuits) and `TrimHistoryPath` does not abort —
it produces a trimmed path using the default `(0, 0)` projections. -/
theorem projection_failure_counterexample :
    envProjFail.proj envProjFail.adc_pos = none ∧
    IsCollisionFree envProjFail = some true ∧
    TrimHistoryPath envProjFail =
      TrimResult.ok [{ x := 1, y := 2, s := 3 }, { x := 1, y := 2, s := 3 }] := by
  refine ⟨rfl, ?_, ?_⟩
  · norm_num [IsCollisionFree, obstaclePolygons, envProjFail, baseEnv]
  · norm_num [TrimHistoryPath, trimLoop, GetADCSLPoint, projD, envProjFail, baseEnv]

/-- Witness for `corner_projection_fails_closed` on a concrete cycle whose
first vehicle-box corner `(99, 99)` is off the reference line's domain. -/
theorem corner_projection_fails_closed_witness :
    IsCollisionFree envCornerFail = some false :=
  corner_projection_fails_closed envCornerFail obsCF
    { x := 21, y := 0, s := 1 } { x := 40, y := 0, s := 20 }
    [{ x := 40, y := 0, s := 20 }]
    { x := 99, y := 99 }
    [{ x := 23, y := 1 }, { x := 23, y := -1 }, { x := 19, y := -1 }]
    (by simp [envCornerFail, baseEnv])
    (by norm_num [obstacleRetained, GetADCSLPoint, projD, envCornerFail, baseEnv,
        obsCF, kSBuffer, kMinObstacleArea])
    rfl
    (by simp)
    (by norm_num [envCornerFail, baseEnv])
    (by norm_num [envCornerFail, baseEnv])
    (by norm_num [projD, envCornerFail, baseEnv, kNumExtraTailBoundPoint,
        kPathBoundsDeciderResolution])
    (by norm_num [projD, GetADCSLPoint, envCornerFail, baseEnv, kSBuffer])

/-- Claim C8 is right about the intended behavior and the code violates it:
with a history frame present, an empty previous path (or one whose every
point projects below `adc_s`) drives `path_start_index` to the path length
and the anchor access `history_path[path_start_index]` is out of bounds —
there is no empty-path check, so instead of a reported non-fatal failure the
cycle hits undefined behavior, which also reaches `Process` (the `none`
below). -/
theorem trim_out_of_bounds_bug :
    TrimHistoryPath envEmptyPath = TrimResult.oob ∧
    TrimHistoryPath envAllBehind = TrimResult.oob ∧
    ProcessStep st0 envEmptyPath = none := by
  refine ⟨?_, ?_, ?_⟩
  · norm_num [TrimHistoryPath, trimLoop, GetADCSLPoint, projD, envEmptyPath, baseEnv]
  · norm_num [TrimHistoryPath, trimLoop, GetADCSLPoint, projD, envAllBehind, baseEnv]
  · norm_num [ProcessStep, st0, CheckPathReusable, IsCollisionFree, obstaclePolygons,
      TrimHistoryPath, trimLoop, GetADCSLPoint, projD, envEmptyPath, baseEnv]

/-- Claim C9: the collision test samples only the projected corner points of
the vehicle box at each discrete path point.  On `env9` the static,
non-virtual obstacle box `[39.5, 40.5] × [-0.2, 0.2]` lies strictly inside
the vehicle footprint `[38, 42] × [-1, 1]` at the sampled pose `x = 40` (so
the swept footprint overlaps it), yet no projected corner falls inside the
box and `IsCollisionFree` returns true. -/
theorem corner_sampling_miss :
    IsCollisionFree env9 = some true ∧
    obs9.is_static = true ∧ obs9.is_virtual = false ∧
    env9.bbox { x := 40, y := 0, s := 20 } =
      [{ x := 38, y := -1 }, { x := 42, y := -1 },
       { x := 42, y := 1 }, { x := 38, y := 1 }] ∧
    (38 : ℚ) < obs9.sl.start_s ∧ obs9.sl.end_s < 42 ∧
    (-1 : ℚ) < obs9.sl.start_l ∧ obs9.sl.end_l < 1 := by
  refine ⟨?_, rfl, rfl, ?_, ?_, ?_, ?_, ?_⟩
  · norm_num [IsCollisionFree, obstaclePolygons, obstacleRetained, GetADCSLPoint,
      projD, collisionScan, cornersFree, isPointIn, env9, baseEnv, obs9,
      kSBuffer, kMinObstacleArea, kNumExtraTailBoundPoint, kPathBoundsDeciderResolution]
  · norm_num [env9, baseEnv]
  · norm_num [obs9]
  · norm_num [obs9]
  · norm_num [obs9]
  · norm_num [obs9]

/-- Claim C10, amended: a configuration-disabled invocation returns early
and changes neither counter; otherwise each invocation adds exactly one to
`total_path_counter_` and adds one to `reusable_path_counter_` exactly when
reuse was attempted (`reused_path` entered true) and the collision check
accepted; both counters never decrease, `reusable ≤ total` is preserved, and
the counters affect neither the flag nor the action (two states differing
only in counters step to the same flag and action). -/
theorem observability_counters (st st2 stp : GateState) (env : Env) (a : Action)
    (hstep : ProcessStep st env = some (stp, a))
    (hinv : st.reusable_path_counter ≤ st.total_path_counter)
    (hflageq : st2.reused_path = st.reused_path) :
    stp.total_path_counter =
      st.total_path_counter + (if env.reuse_path_config = true then 1 else 0) ∧
    stp.reusable_path_counter =
      st.reusable_path_counter +
        (if env.reuse_path_config = true ∧ st.reused_path = true ∧
            CheckPathReusable env = some true then 1 else 0) ∧
    st.total_path_counter ≤ stp.total_path_counter ∧
    st.reusable_path_counter ≤ stp.reusable_path_counter ∧
    stp.reusable_path_counter ≤ stp.total_path_counter ∧
    (ProcessStep st2 env).map (fun r => (r.1.reused_path, r.2)) =
      (ProcessStep st env).map (fun r => (r.1.reused_path, r.2)) := by
  cases hc : env.reuse_path_config with
  | false =>
    simp only [ProcessStep, hc, reduceIte, Option.some.injEq, Prod.mk.injEq] at hstep
    obtain ⟨rfl, rfl⟩ := hstep
    refine ⟨by simp [hc], by simp [hc], le_refl _, le_refl _, hinv, ?_⟩
    simp [ProcessStep, hc, hflageq]
  | true =>
    cases hf : st.reused_path with
    | false =>
      by_cases hcond : env.front_static_obstacle_cycle_counter < kWaitCycle ∨
          IsIgnoredBlockingObstacle env = true
      · simp only [ProcessStep, hc, hf, reduceIte, Bool.true_eq_false, if_pos hcond,
          Option.some.injEq, Prod.mk.injEq] at hstep
        obtain ⟨rfl, rfl⟩ := hstep
        refine ⟨by simp [hc], by simp [hf], by simp, le_refl _, by simp; omega, ?_⟩
        simp [ProcessStep, hc, hflageq, hf, hcond]
      · simp only [ProcessStep, hc, hf, reduceIte, Bool.true_eq_false, if_neg hcond,
          Option.some.injEq, Prod.mk.injEq] at hstep
        obtain ⟨rfl, rfl⟩ := hstep
        refine ⟨by simp [hc], by simp [hf], by simp, le_refl _, by simp; omega, ?_⟩
        simp [ProcessStep, hc, hflageq, hf, hcond]
    | true =>
      cases hicf : CheckPathReusable env with
      | none => simp [ProcessStep, hc, hf, hicf] at hstep
      | some b =>
        cases b with
        | false =>
          simp only [ProcessStep, hc, hf, hicf, reduceIte, Option.some.injEq,
            Prod.mk.injEq] at hstep
          obtain ⟨rfl, rfl⟩ := hstep
          refine ⟨by simp [hc], by simp [hicf], by simp, le_refl _, by simp; omega, ?_⟩
          simp [ProcessStep, hc, hflageq, hf, hicf]
        | true =>
          cases htr : TrimHistoryPath env with
          | oob => simp [ProcessStep, hc, hf, hicf, htr] at hstep
          | noHistory =>
            simp only [ProcessStep, hc, hf, hicf, htr, reduceIte, Option.some.injEq,
              Prod.mk.injEq] at hstep
            obtain ⟨rfl, rfl⟩ := hstep
            refine ⟨by simp [hc], by simp [hc, hf, hicf], by simp, by simp,
              by simp; omega, ?_⟩
            simp [ProcessStep, hc, hflageq, hf, hicf, htr]
          | ok p =>
            simp only [ProcessStep, hc, hf, hicf, htr, reduceIte, Option.some.injEq,
              Prod.mk.injEq] at hstep
            obtain ⟨rfl, rfl⟩ := hstep
            refine ⟨by simp [hc], by simp [hc, hf, hicf], by simp, by simp,
              by simp; omega, ?_⟩
            simp [ProcessStep, hc, hflageq, hf, hicf, htr]

/-- Counterexample to claim C10 as stated: a configuration-disabled
invocation leaves `total_path_counter_` at 0 rather than incrementing it by
exactly one. -/
theorem observability_counters_counterexample :
    (ProcessStep stF envOff).map (fun r => r.1.total_path_counter) = some 0 ∧
    ¬ (ProcessStep stF envOff).map (fun r => r.1.total_path_counter) =
        some (stF.total_path_counter + 1) := by
  constructor
  · norm_num [ProcessStep, envOff, baseEnv, stF]
  · norm_num [ProcessStep, envOff, baseEnv, stF]

/-- Witness for `observability_counters` on a concrete configuration-enabled
cycle that neither attempts reuse nor re-enables it. -/
theorem observability_counters_witness :
    stT1.total_path_counter =
      stF.total_path_counter + (if baseEnv.reuse_path_config = true then 1 else 0) ∧
    stT1.reusable_path_counter =
      stF.reusable_path_counter +
        (if baseEnv.reuse_path_config = true ∧ stF.reused_path = true ∧
            CheckPathReusable baseEnv = some true then 1 else 0) ∧
    stF.total_path_counter ≤ stT1.total_path_counter ∧
    stF.reusable_path_counter ≤ stT1.reusable_path_counter ∧
    stT1.reusable_path_counter ≤ stT1.total_path_counter ∧
    (ProcessStep stF2 baseEnv).map (fun r => (r.1.reused_path, r.2)) =
      (ProcessStep stF baseEnv).map (fun r => (r.1.reused_path, r.2)) :=
  observability_counters stF stF2 stT1 baseEnv Action.Fallback
    (by norm_num [ProcessStep, baseEnv, stF, stT1, IsIgnoredBlockingObstacle,
        GetBlockingObstacleS, kWaitCycle])
    (by norm_num [stF])
    (by norm_num [stF, stF2])

end PathReuse
